import Mathlib

/-
  Verification development for the e-commerce ML service core
  (forecasting, backtesting, model selection, anomaly detection,
  idempotent persistence).

  The Python source (`ml_service/main.py`) is shallowly embedded here:
  - numpy/pandas numeric values become `ℚ` (exact rational arithmetic);
  - dates become `ℤ` epoch-day numbers (1970-01-01 is day 0, a Thursday);
  - square roots (numpy `sqrt`, pandas `.std()`), which are not rational,
    are abstracted as an explicit function parameter wherever the code
    takes one, so every statement quantifies over the choice;
  - the scikit-learn `IsolationForest` is abstracted as a scorer function
    parameterised by its `random_state` seed, its contamination rate and
    the residual series it is fitted on;
  - fallible operations return `Except MLError`, tagging the source
    `ValueError`s by kind.
-/

namespace MLService

/-- Arithmetic mean of a list of rationals (pandas/numpy `.mean()`):
sum divided by count (0 on an empty list, a case the call sites avoid). -/
def mean (xs : List ℚ) : ℚ := xs.sum / xs.length

/-- Function `calculate_mape`: mean of `|actual − predicted| / |actual| × 100` over the
positions where `actual ≠ 0`; returns 0 when no position qualifies. -/
def calculate_mape (actual predicted : List ℚ) : ℚ :=
  let pairs := (actual.zip predicted).filter (fun p => decide (p.1 ≠ 0))
  if pairs.isEmpty then 0
  else mean (pairs.map (fun p => |(p.1 - p.2) / p.1|)) * 100

/-- Function `calculate_smape`: mean of `|a − p| / ((|a| + |p|)/2) × 100` over the
positions where the denominator is nonzero; 0 when no position qualifies. -/
def calculate_smape (actual predicted : List ℚ) : ℚ :=
  let pairs := (actual.zip predicted).filter
    (fun p => decide ((|p.1| + |p.2|) / 2 ≠ 0))
  if pairs.isEmpty then 0
  else mean (pairs.map (fun p => |p.1 - p.2| / ((|p.1| + |p.2|) / 2))) * 100

/-- Function `calculate_rmse`: square root of the mean squared error.  The square
root is not rational, so it is taken as the parameter `sqrtFn`. -/
def calculate_rmse (sqrtFn : ℚ → ℚ) (actual predicted : List ℚ) : ℚ :=
  sqrtFn (mean ((actual.zip predicted).map (fun p => (p.1 - p.2) ^ 2)))

/-- Function `calculate_mae`: mean absolute error, no masking. -/
def calculate_mae (actual predicted : List ℚ) : ℚ :=
  mean ((actual.zip predicted).map (fun p => |p.1 - p.2|))

/-- Function `naive_baseline_forecast`: with fewer than 7 training points, the train
mean repeated `horizon` times; otherwise position `i` is
`train.iloc[-(7 - i % 7)]`, i.e. the value at position
`train.length - (7 - i % 7)`. -/
def naive_baseline_forecast (train : List ℚ) (horizon : ℕ) : List ℚ :=
  if train.length < 7 then List.replicate horizon (mean train)
  else (List.range horizon).map (fun i => train.getD (train.length - (7 - i % 7)) 0)

/-- Round-half-to-even of a rational to an integer, the rounding mode of
the Python `round` builtin. -/
def roundHalfEven (s : ℚ) : ℤ :=
  if 1/2 < s - (⌊s⌋ : ℚ) then ⌊s⌋ + 1
  else if s - (⌊s⌋ : ℚ) < 1/2 then ⌊s⌋
  else if ⌊s⌋ % 2 = 0 then ⌊s⌋ else ⌊s⌋ + 1

/-- Python `round(x, 2)`. -/
def round2 (q : ℚ) : ℚ := (roundHalfEven (q * 100) : ℚ) / 100

/-- Python `round(x, 4)` (the default of the ledger helper `safe_round`). -/
def round4 (q : ℚ) : ℚ := (roundHalfEven (q * 10000) : ℚ) / 10000

/-- All days from `lo` to `hi` inclusive: the reindexing grid produced by
pandas `asfreq` daily reindexing on a date-sorted index. -/
def daysRange (lo hi : ℤ) : List ℤ :=
  (List.range (hi - lo + 1).toNat).map (fun i : ℕ => lo + (i : ℤ))

/-- The value recorded for day `d` in the raw rows, if any. -/
def valueOn (rows : List (ℤ × ℚ)) (d : ℤ) : Option ℚ :=
  (rows.find? (fun p => decide (p.1 = d))).map Prod.snd

/-- Smallest date appearing in the raw rows (0 if empty, a case guarded at
the call sites). -/
def minDate (rows : List (ℤ × ℚ)) : ℤ :=
  match rows.map Prod.fst with
  | [] => 0
  | d :: ds => ds.foldl min d

/-- Largest date appearing in the raw rows (0 if empty). -/
def maxDate (rows : List (ℤ × ℚ)) : ℤ :=
  match rows.map Prod.fst with
  | [] => 0
  | d :: ds => ds.foldl max d

/-- Function `prepare_metric_series`: sort the raw `(date, value)` rows by date,
reindex at daily frequency over the spanned range (pandas `asfreq`), and fill
the days with no recorded value with 0 (`fillna(0)`). -/
def prepare_metric_series (rows : List (ℤ × ℚ)) : List (ℤ × ℚ) :=
  if rows.isEmpty then []
  else (daysRange (minDate rows) (maxDate rows)).map
    (fun d => (d, (valueOn rows d).getD 0))

/-- pandas `Timestamp.dayofweek`: Monday = 0 … Sunday = 6.  Epoch day 0
(1970-01-01) is a Thursday, hence the offset 3. -/
def dayOfWeek (d : ℤ) : ℕ := ((d + 3) % 7).toNat

/-- Column `is_weekend`: day-of-week in `[5, 6]` (Saturday or Sunday). -/
def isWeekend (d : ℤ) : Bool := decide (5 ≤ dayOfWeek d)

/-- Mean of the values on weekend days (the weekend day-type baseline). -/
def weekendMean (rows : List (ℤ × ℚ)) : ℚ :=
  mean ((rows.filter (fun p => isWeekend p.1)).map Prod.snd)

/-- Mean of the values on weekday days (the weekday day-type baseline). -/
def weekdayMean (rows : List (ℤ × ℚ)) : ℚ :=
  mean ((rows.filter (fun p => !isWeekend p.1)).map Prod.snd)

/-- The day-type baseline assigned to row `p`. -/
def dayTypeBaseline (rows : List (ℤ × ℚ)) (p : ℤ × ℚ) : ℚ :=
  if isWeekend p.1 then weekendMean rows else weekdayMean rows

/-- Values of the rows up to and including position `i` that share the day
type of row `i`: the data seen by the grouped rolling window at position `i`. -/
def sameDayTypeSeen (rows : List (ℤ × ℚ)) (i : ℕ) : List ℚ :=
  ((rows.take (i + 1)).filter
    (fun p => isWeekend p.1 == isWeekend ((rows.getD i (0, 0)).1))).map Prod.snd

/-- The trailing window of at most 4 same-day-type observations at
position `i` (pandas `rolling(window=4)` within the group). -/
def rollingWindow (rows : List (ℤ × ℚ)) (i : ℕ) : List ℚ :=
  let g := sameDayTypeSeen rows i
  g.drop (g.length - 4)

/-- Grouped `rolling(window=4, min_periods=2).mean()` at position `i`:
`none` models pandas `NaN` when fewer than 2 same-type points are seen. -/
def rollingMean (rows : List (ℤ × ℚ)) (i : ℕ) : Option ℚ :=
  if 2 ≤ (sameDayTypeSeen rows i).length
  then some (mean (rollingWindow rows i)) else none

/-- Grouped `rolling(window=4, min_periods=2).std()` at position `i`; the
sample standard deviation (an irrational square root) is the abstract
parameter `sampleStd`. -/
def rollingStd (sampleStd : List ℚ → ℚ) (rows : List (ℤ × ℚ)) (i : ℕ) :
    Option ℚ :=
  if 2 ≤ (sameDayTypeSeen rows i).length
  then some (sampleStd (rollingWindow rows i)) else none

/-- Column `expected`: the rolling mean, falling back to the day-type baseline. -/
def expectedAt (rows : List (ℤ × ℚ)) (i : ℕ) : ℚ :=
  (rollingMean rows i).getD (dayTypeBaseline rows (rows.getD i (0, 0)))

/-- Column `std`: the rolling std, falling back to the whole-series std. -/
def stdAt (sampleStd : List ℚ → ℚ) (rows : List (ℤ × ℚ)) (i : ℕ) : ℚ :=
  (rollingStd sampleStd rows i).getD (sampleStd (rows.map Prod.snd))

/-- Column `z_score`, computed as `(actual − expected) / std.replace(0, 1)`. -/
def zScoreAt (sampleStd : List ℚ → ℚ) (rows : List (ℤ × ℚ)) (i : ℕ) : ℚ :=
  ((rows.getD i (0, 0)).2 - expectedAt rows i)
    / (if stdAt sampleStd rows i = 0 then 1 else stdAt sampleStd rows i)

/-- Column `deviation_pct`, computed as
`(actual − expected) / expected.replace(0, 1) * 100`,
rounded to 2 decimals. -/
def deviationAt (rows : List (ℤ × ℚ)) (i : ℕ) : ℚ :=
  round2 (((rows.getD i (0, 0)).2 - expectedAt rows i)
    / (if expectedAt rows i = 0 then 1 else expectedAt rows i) * 100)

/-- The deseasonalized residual series `actual − expected` the outlier
scorer is fitted on. -/
def residualsOf (rows : List (ℤ × ℚ)) : List ℚ :=
  (List.range rows.length).map
    (fun i => (rows.getD i (0, 0)).2 - expectedAt rows i)

/-- Function `get_severity`: thresholds on `|z_score|` and `|deviation_pct|`. -/
def get_severity (z dev : ℚ) : String :=
  if 4 < |z| ∨ 50 < |dev| then "critical"
  else if 3 < |z| ∨ 30 < |dev| then "high"
  else if 2 < |z| ∨ 15 < |dev| then "medium"
  else "low"

/-- Short day names indexed by pandas day-of-week. -/
def dayName (dow : ℕ) : String :=
  (["Mon", "Tue", "Wed", "Thu", "Fri", "Sat", "Sun"]).getD dow ""

/-- Function `get_interpretation`: templated business-interpretation text. -/
def get_interpretation (metric : String) (isAnom : Bool) (atype : Option String)
    (wknd : Bool) (dow : ℕ) : Option String :=
  if !isAnom then none
  else if atype = some "spike" then
    if wknd then
      some ("Unusual weekend spike on " ++ dayName dow
        ++ ". Possible promotion effect or special event.")
    else
      some ("Unexpected high " ++ metric.replace "_" " " ++ " on "
        ++ dayName dow ++ ". Review for campaign impact.")
  else
    if wknd then
      some ("Weekend drop on " ++ dayName dow
        ++ " below normal patterns. Check for site issues.")
    else
      some ("Weekday underperformance on " ++ dayName dow
        ++ ". Investigate operational issues.")

/-- Function `get_action`: templated recommended-action text. -/
def get_action (isAnom : Bool) (severity : String) (atype : Option String) :
    Option String :=
  if !isAnom then none
  else if severity = "critical" ∨ severity = "high" then
    if atype = some "drop" then
      some "URGENT: Check website uptime, payment systems, and inventory availability."
    else some "Review: Identify cause of spike for replication or concern."
  else some "Monitor: Track if pattern continues over next few days."

/-- One fully annotated row of the anomaly-detection frame. -/
structure AnomalyOut where
  date : ℤ
  value : ℚ
  dayOfWeek : ℕ
  isWeekend : Bool
  expected : ℚ
  stdUsed : ℚ
  zScore : ℚ
  deviationPct : ℚ
  ifAnomaly : Bool
  isAnomaly : Bool
  anomalyType : Option String
  severity : String
  interpretation : Option String
  action : Option String
  deriving Repr, DecidableEq

/-- Annotation of row `i` given the outlier flags `flags` computed once for
the whole residual series (column `if_anomaly`). -/
def annotateAt (sampleStd : List ℚ → ℚ) (metric : String)
    (rows : List (ℤ × ℚ)) (flags : List Bool) (i : ℕ) : AnomalyOut :=
  let p := rows.getD i (0, 0)
  let e := expectedAt rows i
  let z := zScoreAt sampleStd rows i
  let dev := deviationAt rows i
  let ifA := flags.getD i false
  let isA := ifA || decide ((5 : ℚ)/2 < |z|)
  let ty : Option String :=
    if isA && decide (e < p.2) then some "spike"
    else if isA && decide (p.2 < e) then some "drop"
    else none
  { date := p.1
    value := p.2
    dayOfWeek := MLService.dayOfWeek p.1
    isWeekend := MLService.isWeekend p.1
    expected := e
    stdUsed := stdAt sampleStd rows i
    zScore := z
    deviationPct := dev
    ifAnomaly := ifA
    isAnomaly := isA
    anomalyType := ty
    severity := get_severity z dev
    interpretation := get_interpretation metric isA ty
      (MLService.isWeekend p.1) (MLService.dayOfWeek p.1)
    action := get_action isA (get_severity z dev) ty }

/-- Function `detect_anomalies_enhanced`: returns an empty frame below 14
observations; otherwise annotates every row (fitting the outlier scorer with
`random_state` 42 and the given contamination on the residual series) and
returns the rows flagged by the scorer or by `|z_score| > 2.5`. -/
def detect_anomalies_enhanced (sampleStd : List ℚ → ℚ)
    (scorer : ℕ → ℚ → List ℚ → List Bool) (metric : String)
    (rows : List (ℤ × ℚ)) (contamination : ℚ) : List AnomalyOut :=
  if rows.length < 14 then []
  else
    ((List.range rows.length).map
      (annotateAt sampleStd metric rows
        (scorer 42 contamination (residualsOf rows)))).filter
      (fun r => r.isAnomaly)

/-- The error kinds raised by the core (the `ValueError`s of the source,
tagged by kind as §7 of the design names them). -/
inductive MLError where
  | insufficientData (needed : ℕ)
  | unsupportedModel (model : String)
  | noUsableModel
  deriving Repr, DecidableEq

instance {ε α : Type} [DecidableEq ε] [DecidableEq α] :
    DecidableEq (Except ε α) := fun a b =>
  match a, b with
  | .error e, .error f =>
    if h : e = f then .isTrue (h ▸ rfl)
    else .isFalse (fun hc => h (Except.error.inj hc))
  | .ok x, .ok y =>
    if h : x = y then .isTrue (h ▸ rfl)
    else .isFalse (fun hc => h (Except.ok.inj hc))
  | .error _, .ok _ => .isFalse (fun hc => Except.noConfusion hc)
  | .ok _, .error _ => .isFalse (fun hc => Except.noConfusion hc)

/-- One record produced by `build_forecast_records`. -/
structure ForecastCell where
  date : ℤ
  predicted : ℚ
  lower_bound : ℚ
  upper_bound : ℚ
  deriving Repr, DecidableEq, Inhabited

/-- Function `build_forecast_records`: every emitted field is clipped at 0
(`max(0, ...)`) and rounded to 2 decimals. -/
def build_forecast_records (dates : List ℤ)
    (predicted lower upper : List ℚ) : List ForecastCell :=
  (List.range dates.length).map (fun i =>
    { date := dates.getD i 0
      predicted := round2 (max 0 (predicted.getD i 0))
      lower_bound := round2 (max 0 (lower.getD i 0))
      upper_bound := round2 (max 0 (upper.getD i 0)) })

/-- The result bundle returned by `backtest_model`. -/
structure BacktestBundle where
  metric : String
  model_type : String
  mape : ℚ
  smape : ℚ
  rmse : ℚ
  mae : ℚ
  baseline_mape : ℚ
  baseline_rmse : ℚ
  improvement_pct : ℚ
  test_samples : ℕ
  train_start : ℤ
  train_end : ℤ
  predictions : List ℚ
  actuals : List ℚ
  deriving Repr, DecidableEq

/-- The improvement-vs-baseline percentage as `backtest_model` computes it:
`(baseline_mape − mape) / baseline_mape × 100` when `baseline_mape > 0`,
and 0 otherwise. -/
def backtestImprovement (baseline_mape mape : ℚ) : ℚ :=
  if 0 < baseline_mape then (baseline_mape - mape) / baseline_mape * 100 else 0

/-- The improvement computation of `save_model_run`: `None` when either
score is missing or the baseline MAPE is not positive. -/
def saveModelRunImprovement (baseline_mape mape : Option ℚ) : Option ℚ :=
  match baseline_mape, mape with
  | some b, some m => if 0 < b then some ((b - m) / b * 100) else none
  | _, _ => none

/-- Modelled from the spec: `improvement_pct = (baseline_mape − mape) /
baseline_mape × 100` when `baseline_mape > 0`, otherwise undefined (null).
This is the partial value of the spec, stated for comparison with what the code
computes. -/
def specImprovement (baseline_mape mape : ℚ) : Option ℚ :=
  if 0 < baseline_mape
  then some ((baseline_mape - mape) / baseline_mape * 100) else none

/-- The success path of `backtest_model` once the length check has passed
and the variant `fit` has been resolved: split, fit, clip at 0, score, and
score the naive baseline over the same holdout. -/
def backtestBundleOf (sqrtFn : ℚ → ℚ) (fit : List (ℤ × ℚ) → ℕ → List ℚ)
    (prepared : List (ℤ × ℚ)) (metric model_type : String)
    (test_days : ℕ) : BacktestBundle :=
  let train_df := if test_days = 0 then []
    else prepared.take (prepared.length - test_days)
  let test_df := if test_days = 0 then prepared
    else prepared.drop (prepared.length - test_days)
  let actuals := test_df.map Prod.snd
  let predictions := (fit train_df test_days).map (fun x => max 0 x)
  let baseline_preds := naive_baseline_forecast (train_df.map Prod.snd) test_days
  let baseline_rmse := calculate_rmse sqrtFn actuals baseline_preds
  let mape := calculate_mape actuals predictions
  let smape := calculate_smape actuals predictions
  let rmse := calculate_rmse sqrtFn actuals predictions
  let mae := calculate_mae actuals predictions
  let baseline_mape := calculate_mape actuals baseline_preds
  { metric := metric
    model_type := model_type
    mape := round2 mape
    smape := round2 smape
    rmse := round2 rmse
    mae := round2 mae
    baseline_mape := round2 baseline_mape
    baseline_rmse := round2 baseline_rmse
    improvement_pct := round2 (backtestImprovement baseline_mape mape)
    test_samples := test_days
    train_start := minDate train_df
    train_end := maxDate train_df
    predictions := predictions
    actuals := actuals }

/-- Function `backtest_model`: prepare the series, require `test_days + 30` total
days, split off the last `test_days` rows as the holdout (Python slicing:
`iloc[:-k]` / `iloc[-k:]`, which for `k = 0` give the empty frame and the
whole frame respectively), fit the requested variant (the opaque
Prophet/ETS fit-and-forecast is the `models` parameter), clip predictions
at 0, and score against the holdout and the naive baseline. -/
def backtest_model (sqrtFn : ℚ → ℚ)
    (models : String → Option (List (ℤ × ℚ) → ℕ → List ℚ))
    (df : List (ℤ × ℚ)) (metric : String) (model_type : String)
    (test_days : ℕ) : Except MLError BacktestBundle :=
  if (prepare_metric_series df).length < test_days + 30 then
    .error (.insufficientData (test_days + 30))
  else
    match models model_type with
    | none => .error (.unsupportedModel model_type)
    | some fit =>
      .ok (backtestBundleOf sqrtFn fit (prepare_metric_series df)
        metric model_type test_days)

/-- Python `sorted(results, key=mape)[0]`: the first bundle attaining the
minimal MAPE (the Python sort is stable, so ties keep list order). -/
def bestBundle : List BacktestBundle → Option BacktestBundle
  | [] => none
  | h :: t => some (t.foldl (fun b r => if r.mape < b.mape then r else b) h)

/-- Function `select_best_model`: backtest every registered candidate, drop the ones
that fail (the `try/except` around each candidate), fail with
`NoUsableModel` when none survive, otherwise pick the surviving bundle with
the lowest MAPE (first-registered wins ties) and return its identifier with
all surviving bundles. -/
def select_best_model (sqrtFn : ℚ → ℚ)
    (models : String → Option (List (ℤ × ℚ) → ℕ → List ℚ))
    (registered : List String) (df : List (ℤ × ℚ)) (metric : String)
    (test_days : ℕ) : Except MLError (String × List BacktestBundle) :=
  let results := registered.filterMap
    (fun mt => (backtest_model sqrtFn models df metric mt test_days).toOption)
  match bestBundle results with
  | none => .error .noUsableModel
  | some best => .ok (best.model_type, results)

/-- A fixed 14-day, all-ones series used to instantiate detector theorems. -/
def sampleRows14 : List (ℤ × ℚ) :=
  (List.range 14).map (fun i => ((i : ℤ), (1 : ℚ)))

/-- A fixed 30-day, all-zero series (exactly the minimum for a holdout
of 0). -/
def sampleRows30 : List (ℤ × ℚ) :=
  (List.range 30).map (fun i => ((i : ℤ), (0 : ℚ)))

/-- A fixed 44-day, all-zero series (exactly the minimum for a holdout
of 14). -/
def sampleRows44 : List (ℤ × ℚ) :=
  (List.range 44).map (fun i => ((i : ℤ), (0 : ℚ)))

/-- The bundle `backtest_model` produces on `sampleRows44` with a trivial
variant and a 14-day holdout, written out for the instantiation below. -/
def witnessBundle44 : BacktestBundle :=
  { metric := "total_revenue", model_type := "ets", mape := 0, smape := 0,
    rmse := 0, mae := 0, baseline_mape := 0, baseline_rmse := 0,
    improvement_pct := 0, test_samples := 14, train_start := 0,
    train_end := 29, predictions := [], actuals := List.replicate 14 0 }

/-- A row of the `ml_forecast_daily` table. -/
structure ForecastRow where
  forecast_date : ℤ
  metric_name : String
  predicted_value : ℚ
  lower_bound : ℚ
  upper_bound : ℚ
  model_run_id : Option ℤ
  model_name : String
  model_version : String
  updated_at : ℕ
  deriving Repr, DecidableEq

/-- The bound values one forecast upsert statement carries. -/
structure ForecastWrite where
  date : ℤ
  metric : String
  predicted : ℚ
  lower : ℚ
  upper : ℚ
  run_id : Option ℤ
  model : String
  version : String
  deriving Repr, DecidableEq

/-- The `(forecast_date, metric_name)` conflict key. -/
def forecastKeyIs (d : ℤ) (m : String) (r : ForecastRow) : Bool :=
  decide (r.forecast_date = d ∧ r.metric_name = m)

/-- The row a fresh forecast insert produces. -/
def forecastInsertRow (w : ForecastWrite) (now : ℕ) : ForecastRow :=
  { forecast_date := w.date
    metric_name := w.metric
    predicted_value := w.predicted
    lower_bound := w.lower
    upper_bound := w.upper
    model_run_id := w.run_id
    model_name := w.model
    model_version := w.version
    updated_at := now }

/-- The `DO UPDATE` merge of `save_forecasts_to_db`: every value field and
`updated_at` are overwritten; only the key columns persist from the stored
row. -/
def forecastUpdateRow (r : ForecastRow) (w : ForecastWrite) (now : ℕ) :
    ForecastRow :=
  { r with
    predicted_value := w.predicted
    lower_bound := w.lower
    upper_bound := w.upper
    model_run_id := w.run_id
    model_name := w.model
    model_version := w.version
    updated_at := now }

/-- The fields the forecast upsert writes. -/
def forecastValueFields (r : ForecastRow) :
    ℚ × ℚ × ℚ × Option ℤ × String × String :=
  (r.predicted_value, r.lower_bound, r.upper_bound, r.model_run_id,
   r.model_name, r.model_version)

/-- One `INSERT ... ON CONFLICT (forecast_date, metric_name) DO UPDATE`
statement of `save_forecasts_to_db`: on conflict every value field and
`updated_at` are overwritten, otherwise a new row is inserted. -/
def upsertForecast (t : List ForecastRow) (w : ForecastWrite) (now : ℕ) :
    List ForecastRow :=
  if t.any (forecastKeyIs w.date w.metric) then
    t.map (fun r => if forecastKeyIs w.date w.metric r then
      forecastUpdateRow r w now else r)
  else
    t ++ [forecastInsertRow w now]

/-- A row of the `ml_anomalies_daily` table. -/
structure AnomalyRow where
  anomaly_date : ℤ
  metric_name : String
  actual_value : ℚ
  expected_value : ℚ
  deviation_pct : ℚ
  z_score : ℚ
  anomaly_type : Option String
  severity : String
  is_weekend : Bool
  day_of_week : ℕ
  business_interpretation : Option String
  recommended_action : Option String
  model_run_id : Option ℤ
  acknowledged : Bool
  acknowledged_by : Option String
  acknowledged_at : Option ℕ
  updated_at : ℕ
  deriving Repr, DecidableEq

/-- The bound values one anomaly upsert statement carries. -/
structure AnomalyWrite where
  date : ℤ
  metric : String
  actual : ℚ
  expected : ℚ
  deviation : ℚ
  z_score : ℚ
  anomaly_type : Option String
  severity : String
  is_weekend : Bool
  dow : ℕ
  interpretation : Option String
  action : Option String
  run_id : Option ℤ
  deriving Repr, DecidableEq

/-- The `(anomaly_date, metric_name)` conflict key. -/
def anomalyKeyIs (d : ℤ) (m : String) (r : AnomalyRow) : Bool :=
  decide (r.anomaly_date = d ∧ r.metric_name = m)

/-- The row a fresh anomaly insert produces.  Modelled from the spec for
the column defaults only: the table DDL is not among the sources, and per
the data model a new anomaly record starts unacknowledged with no
acknowledger or acknowledgment timestamp. -/
def anomalyInsertRow (a : AnomalyWrite) (now : ℕ) : AnomalyRow :=
  { anomaly_date := a.date
    metric_name := a.metric
    actual_value := a.actual
    expected_value := a.expected
    deviation_pct := a.deviation
    z_score := a.z_score
    anomaly_type := a.anomaly_type
    severity := a.severity
    is_weekend := a.is_weekend
    day_of_week := a.dow
    business_interpretation := a.interpretation
    recommended_action := a.action
    model_run_id := a.run_id
    acknowledged := false
    acknowledged_by := none
    acknowledged_at := none
    updated_at := now }

/-- The `DO UPDATE` merge of `save_anomalies_to_db`: it overwrites the
measured value fields, the classification fields and `updated_at`, and
leaves `is_weekend`, `day_of_week`, `acknowledged`, `acknowledged_by` and
`acknowledged_at` untouched (they are absent from its `SET` list). -/
def anomalyUpdateRow (r : AnomalyRow) (a : AnomalyWrite) (now : ℕ) :
    AnomalyRow :=
  { r with
    actual_value := a.actual
    expected_value := a.expected
    deviation_pct := a.deviation
    z_score := a.z_score
    anomaly_type := a.anomaly_type
    severity := a.severity
    business_interpretation := a.interpretation
    recommended_action := a.action
    model_run_id := a.run_id
    updated_at := now }

/-- One `INSERT ... ON CONFLICT (anomaly_date, metric_name) DO UPDATE`
statement of `save_anomalies_to_db`. -/
def upsertAnomaly (t : List AnomalyRow) (a : AnomalyWrite) (now : ℕ) :
    List AnomalyRow :=
  if t.any (anomalyKeyIs a.date a.metric) then
    t.map (fun r => if anomalyKeyIs a.date a.metric r then anomalyUpdateRow r a now
      else r)
  else
    t ++ [anomalyInsertRow a now]

/-- The fields the anomaly `DO UPDATE` overwrites. -/
def anomalyValueFields (r : AnomalyRow) :
    ℚ × ℚ × ℚ × ℚ × Option String × String × Option String × Option String
      × Option ℤ :=
  (r.actual_value, r.expected_value, r.deviation_pct, r.z_score,
   r.anomaly_type, r.severity, r.business_interpretation,
   r.recommended_action, r.model_run_id)

/-- The acknowledgment fields of an anomaly row. -/
def ackFields (r : AnomalyRow) : Bool × Option String × Option ℕ :=
  (r.acknowledged, r.acknowledged_by, r.acknowledged_at)

/-- A stored, acknowledged anomaly row used to instantiate the upsert
theorem. -/
def ackRowSample : AnomalyRow :=
  { anomaly_date := 0
    metric_name := "total_revenue"
    actual_value := 100
    expected_value := 50
    deviation_pct := 100
    z_score := 3
    anomaly_type := some "spike"
    severity := "high"
    is_weekend := false
    day_of_week := 2
    business_interpretation := none
    recommended_action := none
    model_run_id := none
    acknowledged := true
    acknowledged_by := some "analyst"
    acknowledged_at := some 5
    updated_at := 0 }

/-- An anomaly write targeting the key of `ackRowSample`. -/
def anomalyWriteSample : AnomalyWrite :=
  { date := 0
    metric := "total_revenue"
    actual := 120
    expected := 60
    deviation := 100
    z_score := 2
    anomaly_type := some "spike"
    severity := "critical"
    is_weekend := false
    dow := 2
    interpretation := some "note"
    action := some "act"
    run_id := some 7 }

/-- A first forecast write. -/
def forecastWriteSample1 : ForecastWrite :=
  { date := 3
    metric := "total_revenue"
    predicted := 5
    lower := 1
    upper := 9
    run_id := none
    model := "Prophet"
    version := "2.0.0" }

/-- A second forecast write to the same key with a different value. -/
def forecastWriteSample2 : ForecastWrite :=
  { date := 3
    metric := "total_revenue"
    predicted := 7
    lower := 2
    upper := 8
    run_id := some 1
    model := "ETS"
    version := "2.0.0" }

theorem naive_getD_of_lt (train : List ℚ) (horizon i : ℕ)
    (h7 : 7 ≤ train.length) (hi : i < horizon) :
    (naive_baseline_forecast train horizon).getD i 0
      = train.getD (train.length - (7 - i % 7)) 0 := by
  unfold naive_baseline_forecast
  rw [if_neg (by omega)]
  rw [List.getD_eq_getElem?_getD, List.getElem?_map, List.getElem?_range hi]
  rfl

/-- C7: the naive baseline returns the train mean repeated when the train has
fewer than 7 points; with at least 7 points, position `i` of the horizon
repeats the value found 7 days before the predicted date in the combined
train-then-forecast timeline; in particular a 7-day train
`[10,20,30,40,50,60,70]` with horizon 7 is repeated exactly. -/
theorem naive_baseline_weekly_repeat (train : List ℚ) (horizon : ℕ) :
    (train.length < 7 →
      naive_baseline_forecast train horizon = List.replicate horizon (mean train))
    ∧ (7 ≤ train.length → ∀ i, i < horizon →
        (naive_baseline_forecast train horizon).getD i 0
          = (train ++ naive_baseline_forecast train horizon).getD
              (train.length + i - 7) 0)
    ∧ naive_baseline_forecast [10,20,30,40,50,60,70] 7
        = [10,20,30,40,50,60,70] := by
  refine ⟨fun h => ?_, fun h7 i hi => ?_, by decide⟩
  · unfold naive_baseline_forecast
    rw [if_pos h]
  · rw [naive_getD_of_lt train horizon i h7 hi]
    by_cases hcase : i < 7
    · have hmod : i % 7 = i := Nat.mod_eq_of_lt hcase
      have hidx : train.length + i - 7 < train.length := by omega
      rw [List.getD_append _ _ _ _ hidx]
      congr 1
      omega
    · have hge : 7 ≤ i := by omega
      have hlen : train.length ≤ train.length + i - 7 := by omega
      rw [List.getD_append_right _ _ _ _ hlen]
      have hsub : train.length + i - 7 - train.length = i - 7 := by omega
      rw [hsub, naive_getD_of_lt train horizon (i - 7) h7 (by omega)]
      have hmod : (i - 7) % 7 = i % 7 := by
        conv_rhs => rw [show i = (i - 7) + 7 by omega]
        rw [Nat.add_mod_right]
      rw [hmod]

theorem mem_daysRange {lo hi d : ℤ} :
    d ∈ daysRange lo hi ↔ lo ≤ d ∧ d ≤ hi := by
  unfold daysRange
  rw [List.mem_map]
  constructor
  · rintro ⟨i, hi', rfl⟩
    rw [List.mem_range] at hi'
    omega
  · rintro ⟨h1, h2⟩
    refine ⟨(d - lo).toNat, ?_, by omega⟩
    rw [List.mem_range]
    omega

theorem nodup_daysRange (lo hi : ℤ) : (daysRange lo hi).Nodup := by
  unfold daysRange
  refine List.Nodup.map (fun a b h => ?_) (List.nodup_range _)
  omega

theorem foldl_min_le_init (l : List ℤ) (a : ℤ) : l.foldl min a ≤ a := by
  induction l generalizing a with
  | nil => exact le_refl a
  | cons b t ih =>
    rw [List.foldl_cons]
    exact le_trans (ih (min a b)) (min_le_left a b)

theorem foldl_min_le_mem :
    ∀ {l : List ℤ} {x : ℤ}, x ∈ l → ∀ a : ℤ, l.foldl min a ≤ x := by
  intro l
  induction l with
  | nil => intro x hx a; exact absurd hx (List.not_mem_nil x)
  | cons b t ih =>
    intro x hx a
    rw [List.foldl_cons]
    rcases List.mem_cons.mp hx with h | h
    · subst h
      exact le_trans (foldl_min_le_init t (min a x)) (min_le_right a x)
    · exact ih h (min a b)

theorem le_foldl_max_init (l : List ℤ) (a : ℤ) : a ≤ l.foldl max a := by
  induction l generalizing a with
  | nil => exact le_refl a
  | cons b t ih =>
    rw [List.foldl_cons]
    exact le_trans (le_max_left a b) (ih (max a b))

theorem le_foldl_max_mem :
    ∀ {l : List ℤ} {x : ℤ}, x ∈ l → ∀ a : ℤ, x ≤ l.foldl max a := by
  intro l
  induction l with
  | nil => intro x hx a; exact absurd hx (List.not_mem_nil x)
  | cons b t ih =>
    intro x hx a
    rw [List.foldl_cons]
    rcases List.mem_cons.mp hx with h | h
    · subst h
      exact le_trans (le_max_right a x) (le_foldl_max_init t (max a x))
    · exact ih h (max a b)

theorem minDate_le_of_mem {rows : List (ℤ × ℚ)} {p : ℤ × ℚ} (hp : p ∈ rows) :
    minDate rows ≤ p.1 := by
  have hmem : p.1 ∈ rows.map Prod.fst := List.mem_map.mpr ⟨p, hp, rfl⟩
  unfold minDate
  cases hc : rows.map Prod.fst with
  | nil => rw [hc] at hmem; exact absurd hmem (List.not_mem_nil _)
  | cons d ds =>
    rw [hc] at hmem
    rcases List.mem_cons.mp hmem with h | h
    · rw [h]; exact foldl_min_le_init ds d
    · exact foldl_min_le_mem h d

theorem le_maxDate_of_mem {rows : List (ℤ × ℚ)} {p : ℤ × ℚ} (hp : p ∈ rows) :
    p.1 ≤ maxDate rows := by
  have hmem : p.1 ∈ rows.map Prod.fst := List.mem_map.mpr ⟨p, hp, rfl⟩
  unfold maxDate
  cases hc : rows.map Prod.fst with
  | nil => rw [hc] at hmem; exact absurd hmem (List.not_mem_nil _)
  | cons d ds =>
    rw [hc] at hmem
    rcases List.mem_cons.mp hmem with h | h
    · rw [h]; exact le_foldl_max_init ds d
    · exact le_foldl_max_mem h d

theorem valueOn_of_mem {rows : List (ℤ × ℚ)} {p : ℤ × ℚ}
    (hnd : (rows.map Prod.fst).Nodup) (hp : p ∈ rows) :
    valueOn rows p.1 = some p.2 := by
  induction rows with
  | nil => exact absurd hp (List.not_mem_nil p)
  | cons q t ih =>
    rcases List.mem_cons.mp hp with h | h
    · subst h
      simp [valueOn, List.find?_cons]
    · have hnd' := hnd
      rw [List.map_cons, List.nodup_cons] at hnd'
      have hne : q.1 ≠ p.1 := by
        intro hcontra
        exact hnd'.1 (hcontra ▸ List.mem_map.mpr ⟨p, h, rfl⟩)
      simpa [valueOn, List.find?_cons, hne] using ih hnd'.2 h

theorem valueOn_of_not_mem {rows : List (ℤ × ℚ)} {d : ℤ}
    (h : d ∉ rows.map Prod.fst) : valueOn rows d = none := by
  unfold valueOn
  rw [List.find?_eq_none.mpr, Option.map_none']
  intro p hp
  simp only [decide_eq_true_eq]
  intro hcontra
  exact h (hcontra ▸ List.mem_map.mpr ⟨p, hp, rfl⟩)

/-- C8: for nonempty raw input with one row per date, the prepared series has
exactly one entry per calendar day, its days are precisely the span from the
minimum to the maximum input date, no input day is dropped (its value is
kept), and every day absent from the input carries the fill value 0. -/
theorem prepare_series_daily_grid (rows : List (ℤ × ℚ))
    (hne : rows ≠ []) (hnd : (rows.map Prod.fst).Nodup) :
    ((prepare_metric_series rows).map Prod.fst
        = daysRange (minDate rows) (maxDate rows))
    ∧ ((prepare_metric_series rows).map Prod.fst).Nodup
    ∧ (∀ d : ℤ, d ∈ (prepare_metric_series rows).map Prod.fst
        ↔ minDate rows ≤ d ∧ d ≤ maxDate rows)
    ∧ (∀ p ∈ rows, p ∈ prepare_metric_series rows)
    ∧ (∀ q ∈ prepare_metric_series rows, q.1 ∉ rows.map Prod.fst → q.2 = 0) := by
  have hfalse : rows.isEmpty = false := by
    cases rows with
    | nil => exact absurd rfl hne
    | cons a t => rfl
  have hgrid : (prepare_metric_series rows).map Prod.fst
      = daysRange (minDate rows) (maxDate rows) := by
    unfold prepare_metric_series
    rw [hfalse]
    simp only [Bool.false_eq_true, if_false, List.map_map]
    have hcomp : (Prod.fst ∘ fun d : ℤ => (d, (valueOn rows d).getD 0))
        = fun d : ℤ => d := rfl
    rw [hcomp, List.map_id']
  refine ⟨hgrid, ?_, ?_, ?_, ?_⟩
  · rw [hgrid]; exact nodup_daysRange _ _
  · intro d
    rw [hgrid]
    exact mem_daysRange
  · intro p hp
    unfold prepare_metric_series
    rw [hfalse]
    simp only [Bool.false_eq_true, if_false, List.mem_map]
    refine ⟨p.1, mem_daysRange.mpr ⟨minDate_le_of_mem hp, le_maxDate_of_mem hp⟩, ?_⟩
    rw [valueOn_of_mem hnd hp]
    simp
  · intro q hq hnotin
    unfold prepare_metric_series at hq
    rw [hfalse] at hq
    simp only [Bool.false_eq_true, if_false, List.mem_map] at hq
    obtain ⟨d, _, rfl⟩ := hq
    rw [valueOn_of_not_mem hnotin]
    rfl

theorem prepare_series_daily_grid_witness :
    ([(0, 5), (2, 7)] : List (ℤ × ℚ)) ≠ []
    ∧ ((0 : ℤ), (5 : ℚ)) ∈ prepare_metric_series [(0, 5), (2, 7)]
    ∧ (∀ q ∈ prepare_metric_series [((0 : ℤ), (5 : ℚ)), (2, 7)],
        q.1 ∉ ([(0, 5), (2, 7)] : List (ℤ × ℚ)).map Prod.fst → q.2 = 0) :=
  ⟨by decide,
   (prepare_series_daily_grid [(0, 5), (2, 7)] (by decide) (by decide)).2.2.2.1
     (0, 5) (by decide),
   (prepare_series_daily_grid [(0, 5), (2, 7)] (by decide) (by decide)).2.2.2.2⟩

theorem naive_baseline_weekly_repeat_witness :
    naive_baseline_forecast [1,2,3] 2 = List.replicate 2 (mean [1,2,3])
    ∧ (naive_baseline_forecast [10,20,30,40,50,60,70] 9).getD 8 0
        = (([10,20,30,40,50,60,70] : List ℚ)
            ++ naive_baseline_forecast [10,20,30,40,50,60,70] 9).getD 8 0 :=
  ⟨(naive_baseline_weekly_repeat [1,2,3] 2).1 (by decide),
   (naive_baseline_weekly_repeat [10,20,30,40,50,60,70] 9).2.1 (by decide) 8
     (by decide)⟩

theorem anomalyType_spec (isA : Bool) (e v : ℚ) :
    ((if isA && decide (e < v) then some "spike"
      else if isA && decide (v < e) then some "drop"
      else (none : Option String)) = some "spike" ↔ isA = true ∧ e < v)
    ∧ ((if isA && decide (e < v) then some "spike"
      else if isA && decide (v < e) then some "drop"
      else (none : Option String)) = some "drop" ↔ isA = true ∧ v < e)
    ∧ (isA = false →
      (if isA && decide (e < v) then some "spike"
      else if isA && decide (v < e) then some "drop"
      else (none : Option String)) = none) := by
  by_cases hA : isA = true
  · by_cases h1 : e < v
    · have h2 : ¬v < e := asymm h1
      simp [hA, h1, h2]
    · by_cases h2 : v < e
      · simp [hA, h1, h2]
      · simp [hA, h1, h2]
  · have hA' : isA = false := by simpa using hA
    simp [hA']

/-- C9: on fewer than 14 observations the anomaly detector returns an empty
result, for every contamination value (and every scorer and std model),
rather than raising an error. -/
theorem anomaly_detector_short_series_empty (sampleStd : List ℚ → ℚ)
    (scorer : ℕ → ℚ → List ℚ → List Bool) (metric : String)
    (rows : List (ℤ × ℚ)) (contamination : ℚ) (h : rows.length < 14) :
    detect_anomalies_enhanced sampleStd scorer metric rows contamination = [] := by
  unfold detect_anomalies_enhanced
  rw [if_pos h]

theorem anomaly_detector_short_series_empty_witness :
    detect_anomalies_enhanced (fun _ => 1) (fun _ _ rs => rs.map (fun _ => false))
      "total_orders" [(0, 5)] (7/10) = [] :=
  anomaly_detector_short_series_empty (fun _ => 1)
    (fun _ _ rs => rs.map (fun _ => false)) "total_orders" [(0, 5)] (7/10)
    (by decide)

/-- C10: anomaly detection is deterministic — its output depends only on the
behaviour of the outlier scorer at the fixed seed 42 (`random_state=42`): any two
scorer implementations agreeing at seed 42 yield identical flagged rows and
field values on the same frame, metric and contamination. -/
theorem anomaly_detection_deterministic (sampleStd : List ℚ → ℚ)
    (s1 s2 : ℕ → ℚ → List ℚ → List Bool) (metric : String)
    (rows : List (ℤ × ℚ)) (contamination : ℚ)
    (h : ∀ c rs, s1 42 c rs = s2 42 c rs) :
    detect_anomalies_enhanced sampleStd s1 metric rows contamination
      = detect_anomalies_enhanced sampleStd s2 metric rows contamination := by
  unfold detect_anomalies_enhanced
  rw [h contamination (residualsOf rows)]

theorem anomaly_detection_deterministic_witness :
    detect_anomalies_enhanced (fun _ => 1)
      (fun seed _ rs => rs.map (fun _ => decide (seed = 0)))
      "total_revenue" sampleRows14 (1/10)
    = detect_anomalies_enhanced (fun _ => 1)
      (fun _ _ rs => rs.map (fun _ => false))
      "total_revenue" sampleRows14 (1/10) :=
  anomaly_detection_deterministic (fun _ => 1)
    (fun seed _ rs => rs.map (fun _ => decide (seed = 0)))
    (fun _ _ rs => rs.map (fun _ => false))
    "total_revenue" sampleRows14 (1/10) (fun _ _ => rfl)

/-- C3: with at least 14 observations, the detector result is exactly the
annotated rows that are flagged; a row is flagged iff the outlier scorer
marks it or `|z_score| > 2.5`; the type of a flagged row is `spike` iff
actual > expected and `drop` iff actual < expected, and an unflagged row
gets no type. -/
theorem anomaly_flag_or_rule (sampleStd : List ℚ → ℚ)
    (scorer : ℕ → ℚ → List ℚ → List Bool) (metric : String)
    (rows : List (ℤ × ℚ)) (contamination : ℚ) (h14 : 14 ≤ rows.length) :
    (detect_anomalies_enhanced sampleStd scorer metric rows contamination
      = ((List.range rows.length).map
          (annotateAt sampleStd metric rows
            (scorer 42 contamination (residualsOf rows)))).filter
          (fun r => r.isAnomaly))
    ∧ (∀ i, i < rows.length →
        (annotateAt sampleStd metric rows
            (scorer 42 contamination (residualsOf rows)) i).isAnomaly
          = ((scorer 42 contamination (residualsOf rows)).getD i false
              || decide ((5 : ℚ)/2 < |zScoreAt sampleStd rows i|)))
    ∧ (∀ flags : List Bool, ∀ i, i < rows.length →
        ((annotateAt sampleStd metric rows flags i).anomalyType = some "spike"
          ↔ (annotateAt sampleStd metric rows flags i).isAnomaly = true
            ∧ (annotateAt sampleStd metric rows flags i).expected
                < (annotateAt sampleStd metric rows flags i).value)
        ∧ ((annotateAt sampleStd metric rows flags i).anomalyType = some "drop"
          ↔ (annotateAt sampleStd metric rows flags i).isAnomaly = true
            ∧ (annotateAt sampleStd metric rows flags i).value
                < (annotateAt sampleStd metric rows flags i).expected)
        ∧ ((annotateAt sampleStd metric rows flags i).isAnomaly = false →
            (annotateAt sampleStd metric rows flags i).anomalyType = none)) := by
  refine ⟨?_, fun i _ => rfl, fun flags i _ => ?_⟩
  · unfold detect_anomalies_enhanced
    rw [if_neg (by omega)]
  · exact anomalyType_spec
      (flags.getD i false
        || decide ((5 : ℚ)/2 < |zScoreAt sampleStd rows i|))
      (expectedAt rows i) ((rows.getD i (0, 0)).2)

theorem anomaly_flag_or_rule_witness :
    detect_anomalies_enhanced (fun _ => 1)
        (fun _ _ rs => rs.map (fun _ => false)) "total_revenue" sampleRows14 (1/10)
      = ((List.range sampleRows14.length).map
          (annotateAt (fun _ => 1) "total_revenue" sampleRows14
            ((fun _ _ rs => rs.map (fun _ => false) : ℕ → ℚ → List ℚ → List Bool)
              42 (1/10) (residualsOf sampleRows14)))).filter
          (fun r => r.isAnomaly) :=
  (anomaly_flag_or_rule (fun _ => 1) (fun _ _ rs => rs.map (fun _ => false))
    "total_revenue" sampleRows14 (1/10) (by decide)).1

theorem roundHalfEven_nonneg {s : ℚ} (h : 0 ≤ s) : 0 ≤ roundHalfEven s := by
  unfold roundHalfEven
  have hf : (0 : ℤ) ≤ ⌊s⌋ := Int.floor_nonneg.mpr h
  split_ifs <;> omega

theorem round2_nonneg {q : ℚ} (h : 0 ≤ q) : 0 ≤ round2 q := by
  unfold round2
  apply div_nonneg _ (by norm_num)
  exact_mod_cast roundHalfEven_nonneg (by positivity)

theorem round2_den (q : ℚ) : (round2 q * 100).den = 1 := by
  have h : round2 q * 100 = ((roundHalfEven (q * 100) : ℤ) : ℚ) := by
    unfold round2
    field_simp
  rw [h]
  exact Rat.den_intCast _

/-- C1 (counterexample): the improvement-vs-baseline field of the backtest
bundle at baseline MAPE 0 is the defined number 0, not the null the claim
demands. -/
theorem improvement_zero_baseline_counterexample :
    some (backtestImprovement 0 5) ≠ specImprovement 0 5 := by
  decide

/-- C1 (amended): the improvement of the recorded model run is exactly the
partial value the spec mandates — `(baseline_mape − mape)/baseline_mape × 100` when
`baseline_mape > 0`, null when a score is missing or the baseline MAPE is
not positive; the backtest result bundle computes the same formula when
`baseline_mape > 0` but reports 0, not null, otherwise.  Neither path
divides by a non-positive baseline. -/
theorem improvement_vs_baseline (b m : ℚ) (ob om : Option ℚ) :
    (saveModelRunImprovement (some b) (some m) = specImprovement b m)
    ∧ (saveModelRunImprovement none om = none)
    ∧ (saveModelRunImprovement ob none = none)
    ∧ (0 < b → backtestImprovement b m = (b - m) / b * 100
        ∧ some (backtestImprovement b m) = specImprovement b m)
    ∧ (¬0 < b → backtestImprovement b m = 0) := by
  refine ⟨rfl, rfl, ?_, fun h => ?_, fun h => ?_⟩
  · cases ob <;> rfl
  · unfold backtestImprovement specImprovement
    rw [if_pos h, if_pos h]
    exact ⟨rfl, rfl⟩
  · unfold backtestImprovement
    rw [if_neg h]

theorem improvement_vs_baseline_witness :
    backtestImprovement 2 1 = (2 - 1) / 2 * 100
    ∧ some (backtestImprovement 2 1) = specImprovement 2 1
    ∧ backtestImprovement 0 7 = 0 :=
  ⟨((improvement_vs_baseline 2 1 none none).2.2.2.1 (by norm_num)).1,
   ((improvement_vs_baseline 2 1 none none).2.2.2.1 (by norm_num)).2,
   (improvement_vs_baseline 0 7 none none).2.2.2.2 (by norm_num)⟩

/-- C6: every record emitted by `build_forecast_records` carries the raw
model outputs clipped at 0 and rounded to 2 decimals — so its predicted
value and both bounds are non-negative multiples of 1/100 regardless of the
raw sign — and a successful backtest clips its predictions at 0 before
scoring (its stored MAPE is computed over the clipped list, all of whose
members are non-negative). -/
theorem forecast_records_clipped (dates : List ℤ)
    (predicted lower upper : List ℚ) (sqrtFn : ℚ → ℚ)
    (models : String → Option (List (ℤ × ℚ) → ℕ → List ℚ))
    (df : List (ℤ × ℚ)) (metric model_type : String) (test_days : ℕ) :
    (∀ i, i < dates.length →
      (build_forecast_records dates predicted lower upper).getD i default
        = { date := dates.getD i 0
            predicted := round2 (max 0 (predicted.getD i 0))
            lower_bound := round2 (max 0 (lower.getD i 0))
            upper_bound := round2 (max 0 (upper.getD i 0)) })
    ∧ (∀ r ∈ build_forecast_records dates predicted lower upper,
        (0 ≤ r.predicted ∧ 0 ≤ r.lower_bound ∧ 0 ≤ r.upper_bound)
        ∧ ((r.predicted * 100).den = 1 ∧ (r.lower_bound * 100).den = 1
            ∧ (r.upper_bound * 100).den = 1))
    ∧ (∀ b, backtest_model sqrtFn models df metric model_type test_days = .ok b →
        (∀ p ∈ b.predictions, 0 ≤ p)
        ∧ b.mape = round2 (calculate_mape b.actuals b.predictions)) := by
  refine ⟨fun i hi => ?_, fun r hr => ?_, fun b hb => ?_⟩
  · unfold build_forecast_records
    rw [List.getD_eq_getElem?_getD, List.getElem?_map, List.getElem?_range hi]
    rfl
  · unfold build_forecast_records at hr
    rw [List.mem_map] at hr
    obtain ⟨i, _, rfl⟩ := hr
    exact ⟨⟨round2_nonneg (le_max_left 0 _), round2_nonneg (le_max_left 0 _),
      round2_nonneg (le_max_left 0 _)⟩,
      round2_den _, round2_den _, round2_den _⟩
  · unfold backtest_model at hb
    by_cases hlen : (prepare_metric_series df).length < test_days + 30
    · rw [if_pos hlen] at hb; cases hb
    · rw [if_neg hlen] at hb
      cases hm : models model_type with
      | none => rw [hm] at hb; cases hb
      | some fit =>
        rw [hm] at hb
        have hb' : backtestBundleOf sqrtFn fit (prepare_metric_series df)
            metric model_type test_days = b := by
          injection hb
        subst hb'
        constructor
        · intro p hp
          have hp' : p ∈ (fit (if test_days = 0 then []
              else (prepare_metric_series df).take
                ((prepare_metric_series df).length - test_days)) test_days).map
              (fun x => max 0 x) := hp
          rw [List.mem_map] at hp'
          obtain ⟨x, _, rfl⟩ := hp'
          exact le_max_left 0 x
        · rfl

theorem forecast_records_clipped_witness :
    (build_forecast_records [(0 : ℤ)] [(-3 : ℚ)] [(1 : ℚ)/3] [(2 : ℚ)]).getD 0 default
      = { date := (0 : ℤ)
          predicted := round2 (max 0 (([(-3 : ℚ)]).getD 0 0))
          lower_bound := round2 (max 0 (([(1 : ℚ)/3]).getD 0 0))
          upper_bound := round2 (max 0 (([(2 : ℚ)]).getD 0 0)) } :=
  (forecast_records_clipped [(0 : ℤ)] [(-3 : ℚ)] [(1 : ℚ)/3] [(2 : ℚ)]
    (fun _ => 0) (fun _ => none) [] "total_revenue" "ets" 14).1 0 (by decide)

/-- C5 (amended): backtesting fails with `InsufficientData` exactly when
the prepared series has fewer than `H + 30` total days; on success with a
holdout `H ≥ 1` it splits into train = all but the last `H` days (the model
is fitted on exactly that slice, and the recorded train range spans it) and
test = exactly the last `H` days; with `H = 0` the Python slices degenerate
to an empty train and a whole-series test. -/
theorem backtest_threshold_and_split (sqrtFn : ℚ → ℚ)
    (models : String → Option (List (ℤ × ℚ) → ℕ → List ℚ))
    (df : List (ℤ × ℚ)) (metric model_type : String) (test_days : ℕ) :
    (backtest_model sqrtFn models df metric model_type test_days
        = .error (.insufficientData (test_days + 30))
      ↔ (prepare_metric_series df).length < test_days + 30)
    ∧ (∀ fit b, models model_type = some fit →
        backtest_model sqrtFn models df metric model_type test_days = .ok b →
        1 ≤ test_days →
          b.actuals = ((prepare_metric_series df).drop
              ((prepare_metric_series df).length - test_days)).map Prod.snd
          ∧ b.actuals.length = test_days
          ∧ b.predictions = (fit ((prepare_metric_series df).take
              ((prepare_metric_series df).length - test_days)) test_days).map
              (fun x => max 0 x)
          ∧ b.train_start = minDate ((prepare_metric_series df).take
              ((prepare_metric_series df).length - test_days))
          ∧ b.train_end = maxDate ((prepare_metric_series df).take
              ((prepare_metric_series df).length - test_days))
          ∧ b.test_samples = test_days)
    ∧ (∀ fit b, models model_type = some fit →
        backtest_model sqrtFn models df metric model_type test_days = .ok b →
        test_days = 0 →
          b.actuals = (prepare_metric_series df).map Prod.snd
          ∧ b.predictions = (fit [] 0).map (fun x => max 0 x)) := by
  refine ⟨?_, ?_, ?_⟩
  · unfold backtest_model
    by_cases hlen : (prepare_metric_series df).length < test_days + 30
    · rw [if_pos hlen]
      simp [hlen]
    · rw [if_neg hlen]
      cases hm : models model_type with
      | none => simp [hlen]
      | some fit => simp [hlen]
  · intro fit b hm hb htd
    unfold backtest_model at hb
    by_cases hlen : (prepare_metric_series df).length < test_days + 30
    · rw [if_pos hlen] at hb; cases hb
    · rw [if_neg hlen, hm] at hb
      have hb' : backtestBundleOf sqrtFn fit (prepare_metric_series df)
          metric model_type test_days = b := by
        injection hb
      subst hb'
      have htd0 : ¬test_days = 0 := by omega
      refine ⟨?_, ?_, ?_, ?_, ?_, rfl⟩
      · show ((if test_days = 0 then prepare_metric_series df
            else (prepare_metric_series df).drop
              ((prepare_metric_series df).length - test_days)).map Prod.snd) = _
        rw [if_neg htd0]
      · show ((if test_days = 0 then prepare_metric_series df
            else (prepare_metric_series df).drop
              ((prepare_metric_series df).length - test_days)).map Prod.snd).length = _
        rw [if_neg htd0, List.length_map, List.length_drop]
        omega
      · show ((fit (if test_days = 0 then []
            else (prepare_metric_series df).take
              ((prepare_metric_series df).length - test_days)) test_days).map
            (fun x => max 0 x)) = _
        rw [if_neg htd0]
      · show minDate (if test_days = 0 then []
            else (prepare_metric_series df).take
              ((prepare_metric_series df).length - test_days)) = _
        rw [if_neg htd0]
      · show maxDate (if test_days = 0 then []
            else (prepare_metric_series df).take
              ((prepare_metric_series df).length - test_days)) = _
        rw [if_neg htd0]
  · intro fit b hm hb htd
    subst htd
    unfold backtest_model at hb
    by_cases hlen : (prepare_metric_series df).length < 0 + 30
    · rw [if_pos hlen] at hb; cases hb
    · rw [if_neg hlen, hm] at hb
      have hb' : backtestBundleOf sqrtFn fit (prepare_metric_series df)
          metric model_type 0 = b := by
        injection hb
      subst hb'
      exact ⟨rfl, rfl⟩

set_option maxRecDepth 40000 in
/-- C5 (counterexample to the claim as stated): with holdout `H = 0` on a
30-day series the backtest succeeds but its holdout is the whole series
(30 actuals), not "exactly the last 0 days". -/
theorem backtest_zero_holdout_counterexample :
    (backtest_model (fun _ => 0) (fun _ => some (fun _ h => List.replicate h 1))
        sampleRows30 "total_revenue" "ets" 0).toOption.map
        (fun b => b.actuals.length) = some 30
    ∧ (30 : ℕ) ≠ 0 := by
  constructor
  · decide
  · decide

set_option maxRecDepth 40000 in
theorem backtest_threshold_and_split_witness :
    (backtest_model (fun _ => 0) (fun _ => some (fun _ _ => []))
        sampleRows44 "total_revenue" "ets" 43 = Except.error
          (MLError.insufficientData (43 + 30))
      ↔ (prepare_metric_series sampleRows44).length < 43 + 30)
    ∧ witnessBundle44.actuals
        = ((prepare_metric_series sampleRows44).drop
            ((prepare_metric_series sampleRows44).length - 14)).map Prod.snd
    ∧ witnessBundle44.actuals.length = 14 :=
  ⟨(backtest_threshold_and_split (fun _ => 0) (fun _ => some (fun _ _ => []))
      sampleRows44 "total_revenue" "ets" 43).1,
   ((backtest_threshold_and_split (fun _ => 0) (fun _ => some (fun _ _ => []))
      sampleRows44 "total_revenue" "ets" 14).2.1 (fun _ _ => [])
      witnessBundle44 rfl (by with_unfolding_all decide) (by decide)).1,
   ((backtest_threshold_and_split (fun _ => 0) (fun _ => some (fun _ _ => []))
      sampleRows44 "total_revenue" "ets" 14).2.1 (fun _ _ => [])
      witnessBundle44 rfl (by with_unfolding_all decide) (by decide)).2.1⟩

theorem except_toOption_eq_none {ε α : Type} (x : Except ε α) :
    x.toOption = none ↔ ∃ e, x = .error e := by
  cases x with
  | error e => simp [Except.toOption]
  | ok a => simp [Except.toOption]

theorem all_candidates_failed_iff (sqrtFn : ℚ → ℚ)
    (models : String → Option (List (ℤ × ℚ) → ℕ → List ℚ))
    (registered : List String) (df : List (ℤ × ℚ)) (metric : String)
    (test_days : ℕ) :
    registered.filterMap
      (fun mt => (backtest_model sqrtFn models df metric mt test_days).toOption) = []
    ↔ ∀ mt ∈ registered, ∃ e,
        backtest_model sqrtFn models df metric mt test_days = .error e := by
  rw [List.filterMap_eq_nil_iff]
  constructor
  · intro h mt hmt
    exact (except_toOption_eq_none _).mp (h mt hmt)
  · intro h mt hmt
    exact (except_toOption_eq_none _).mpr (h mt hmt)

theorem bestBundle_first_min (t : List BacktestBundle) (h : BacktestBundle) :
    (∃ l₁ l₂, h :: t = l₁
        ++ (t.foldl (fun b r => if r.mape < b.mape then r else b) h) :: l₂
        ∧ ∀ x ∈ l₁,
            (t.foldl (fun b r => if r.mape < b.mape then r else b) h).mape
              < x.mape)
    ∧ (∀ x ∈ h :: t,
        (t.foldl (fun b r => if r.mape < b.mape then r else b) h).mape
          ≤ x.mape) := by
  induction t generalizing h with
  | nil =>
    refine ⟨⟨[], [], rfl, by simp⟩, ?_⟩
    intro x hx
    rcases List.mem_cons.mp hx with hx | hx
    · rw [hx]
      exact le_refl h.mape
    · exact absurd hx (List.not_mem_nil x)
  | cons r t ih =>
    rw [List.foldl_cons]
    by_cases hr : r.mape < h.mape
    · rw [if_pos hr]
      obtain ⟨⟨l₁, l₂, hdec, hgt⟩, hle⟩ := ih r
      have hfr : (t.foldl (fun b r => if r.mape < b.mape then r else b) r).mape
          ≤ r.mape := hle r (List.mem_cons_self r t)
      refine ⟨⟨h :: l₁, l₂, ?_, ?_⟩, ?_⟩
      · rw [List.cons_append, ← hdec]
      · intro x hx
        rcases List.mem_cons.mp hx with hx | hx
        · rw [hx]; exact lt_of_le_of_lt hfr hr
        · exact hgt x hx
      · intro x hx
        rcases List.mem_cons.mp hx with hx | hx
        · rw [hx]; exact le_of_lt (lt_of_le_of_lt hfr hr)
        · exact hle x hx
    · rw [if_neg hr]
      obtain ⟨⟨l₁, l₂, hdec, hgt⟩, hle⟩ := ih h
      have hhr : h.mape ≤ r.mape := le_of_not_lt hr
      have hfh : (t.foldl (fun b r => if r.mape < b.mape then r else b) h).mape
          ≤ h.mape := hle h (List.mem_cons_self h t)
      have hmemall : ∀ x ∈ h :: r :: t,
          (t.foldl (fun b r => if r.mape < b.mape then r else b) h).mape
            ≤ x.mape := by
        intro x hx
        rcases List.mem_cons.mp hx with hx | hx
        · rw [hx]; exact hfh
        · rcases List.mem_cons.mp hx with hx | hx
          · rw [hx]; exact le_trans hfh hhr
          · exact hle x (List.mem_cons_of_mem h hx)
      cases l₁ with
      | nil =>
        rw [List.nil_append, List.cons.injEq] at hdec
        refine ⟨⟨[], r :: t, ?_, by simp⟩, hmemall⟩
        rw [List.nil_append, ← hdec.1]
      | cons a l₁' =>
        rw [List.cons_append, List.cons.injEq] at hdec
        have hlth : (t.foldl (fun b r => if r.mape < b.mape then r else b) h).mape
            < h.mape := by
          have hthis := hgt a (List.mem_cons_self a l₁')
          rw [← hdec.1] at hthis
          exact hthis
        refine ⟨⟨h :: r :: l₁', l₂, ?_, ?_⟩, hmemall⟩
        · rw [List.cons_append, List.cons_append]
          exact congrArg (fun l => h :: r :: l) hdec.2
        · intro x hx
          rcases List.mem_cons.mp hx with hx | hx
          · rw [hx]
            exact hlth
          · rcases List.mem_cons.mp hx with hx | hx
            · rw [hx]
              exact lt_of_lt_of_le hlth hhr
            · exact hgt x (List.mem_cons_of_mem a hx)

/-- C4: model selection backtests each registered candidate; a candidate
that fails is dropped without aborting selection (any surviving candidate
guarantees an `ok` result containing its bundle); selection fails with
`NoUsableModel` exactly when every candidate fails; and on success the
winner is the surviving bundle with the lowest MAPE, ties broken in favor
of the earlier-registered candidate (every survivor listed before the
winner has a strictly larger MAPE, and none beats it). -/
theorem model_selector_lowest_mape (sqrtFn : ℚ → ℚ)
    (models : String → Option (List (ℤ × ℚ) → ℕ → List ℚ))
    (registered : List String) (df : List (ℤ × ℚ)) (metric : String)
    (test_days : ℕ) :
    (select_best_model sqrtFn models registered df metric test_days
        = .error .noUsableModel
      ↔ ∀ mt ∈ registered, ∃ e,
          backtest_model sqrtFn models df metric mt test_days = .error e)
    ∧ (∀ mt ∈ registered, ∀ b,
        backtest_model sqrtFn models df metric mt test_days = .ok b →
        ∃ p, select_best_model sqrtFn models registered df metric test_days
            = .ok p ∧ b ∈ p.2)
    ∧ (∀ best results,
        select_best_model sqrtFn models registered df metric test_days
          = .ok (best, results) →
        results = registered.filterMap
          (fun mt => (backtest_model sqrtFn models df metric mt test_days).toOption)
        ∧ ∃ w l₁ l₂, best = w.model_type
            ∧ results = l₁ ++ w :: l₂
            ∧ (∀ x ∈ l₁, w.mape < x.mape)
            ∧ (∀ x ∈ results, w.mape ≤ x.mape)) := by
  refine ⟨?_, ?_, ?_⟩
  · rw [← all_candidates_failed_iff sqrtFn models registered df metric test_days]
    unfold select_best_model
    cases hres : registered.filterMap
        (fun mt => (backtest_model sqrtFn models df metric mt test_days).toOption) with
    | nil => simp [bestBundle]
    | cons a t => simp [bestBundle]
  · intro mt hmt b hb
    have hmem : b ∈ registered.filterMap
        (fun mt => (backtest_model sqrtFn models df metric mt test_days).toOption) :=
      List.mem_filterMap.mpr ⟨mt, hmt, by rw [hb]; rfl⟩
    unfold select_best_model
    cases hres : registered.filterMap
        (fun mt => (backtest_model sqrtFn models df metric mt test_days).toOption) with
    | nil => rw [hres] at hmem; exact absurd hmem (List.not_mem_nil b)
    | cons a t =>
      rw [hres] at hmem
      refine ⟨((t.foldl (fun (b r : BacktestBundle) =>
        if r.mape < b.mape then r else b) a).model_type, a :: t), ?_, hmem⟩
      rfl
  · intro best results hsel
    unfold select_best_model at hsel
    cases hres : registered.filterMap
        (fun mt => (backtest_model sqrtFn models df metric mt test_days).toOption) with
    | nil =>
      rw [hres] at hsel
      simp only [bestBundle] at hsel
      exact Except.noConfusion hsel
    | cons a t =>
      rw [hres] at hsel
      simp only [bestBundle] at hsel
      rw [Except.ok.injEq, Prod.mk.injEq] at hsel
      obtain ⟨hbest, hresults⟩ := hsel
      subst hresults
      obtain ⟨⟨l₁, l₂, hdec, hgt⟩, hle⟩ := bestBundle_first_min t a
      refine ⟨rfl, t.foldl (fun (b r : BacktestBundle) =>
        if r.mape < b.mape then r else b) a, l₁, l₂, ?_, ?_, ?_, ?_⟩
      · exact hbest.symm
      · exact hdec
      · exact hgt
      · exact hle

theorem model_selector_lowest_mape_witness :
    select_best_model (fun _ => 0) (fun _ => none) ["prophet", "ets"] []
      "total_revenue" 14 = Except.error MLError.noUsableModel :=
  (model_selector_lowest_mape (fun _ => 0) (fun _ => none) ["prophet", "ets"]
    [] "total_revenue" 14).1.mpr
    (by
      intro mt hmt
      exact ⟨.insufficientData 44, rfl⟩)

theorem filter_eq_singleton_of_any {α : Type} {p : α → Bool} {t : List α}
    (hany : t.any p = true) (hlen : (t.filter p).length ≤ 1) :
    ∃ r0, t.filter p = [r0] ∧ r0 ∈ t ∧ p r0 = true := by
  obtain ⟨x, hx, hpx⟩ := List.any_eq_true.mp hany
  have hmem : x ∈ t.filter p := List.mem_filter.mpr ⟨hx, hpx⟩
  cases hf : t.filter p with
  | nil => rw [hf] at hmem; exact absurd hmem (List.not_mem_nil x)
  | cons r0 rest =>
    cases rest with
    | nil =>
      have hr0 : r0 ∈ t.filter p := by rw [hf]; exact List.mem_cons_self r0 []
      have hmf := List.mem_filter.mp hr0
      exact ⟨r0, rfl, hmf.1, hmf.2⟩
    | cons r1 rest2 =>
      rw [hf] at hlen
      simp at hlen

theorem upsertForecast_conflict (t : List ForecastRow) (w : ForecastWrite)
    (now : ℕ) (r0 : ForecastRow)
    (hf : t.filter (forecastKeyIs w.date w.metric) = [r0]) :
    (upsertForecast t w now).filter (forecastKeyIs w.date w.metric)
      = [forecastUpdateRow r0 w now] := by
  have hr0 : r0 ∈ t.filter (forecastKeyIs w.date w.metric) := by
    rw [hf]; exact List.mem_cons_self r0 []
  have hmf := List.mem_filter.mp hr0
  have hany : t.any (forecastKeyIs w.date w.metric) = true :=
    List.any_eq_true.mpr ⟨r0, hmf.1, hmf.2⟩
  unfold upsertForecast
  rw [if_pos hany, List.filter_map]
  have hcong : ∀ r ∈ t,
      ((forecastKeyIs w.date w.metric) ∘ (fun r =>
        if forecastKeyIs w.date w.metric r then forecastUpdateRow r w now
        else r)) r = forecastKeyIs w.date w.metric r := by
    intro r hr
    by_cases hpr : forecastKeyIs w.date w.metric r = true
    · simp only [Function.comp_apply, if_pos hpr]
      rfl
    · simp only [Function.comp_apply, if_neg hpr]
  rw [List.filter_congr hcong, hf, List.map_cons, List.map_nil, if_pos hmf.2]

theorem upsertForecast_fresh (t : List ForecastRow) (w : ForecastWrite)
    (now : ℕ) (hf : t.filter (forecastKeyIs w.date w.metric) = []) :
    (upsertForecast t w now).filter (forecastKeyIs w.date w.metric)
      = [forecastInsertRow w now] := by
  have hany : t.any (forecastKeyIs w.date w.metric) = false := by
    cases hb : t.any (forecastKeyIs w.date w.metric) with
    | false => rfl
    | true =>
      obtain ⟨x, hx, hpx⟩ := List.any_eq_true.mp hb
      have hxf : x ∈ t.filter (forecastKeyIs w.date w.metric) :=
        List.mem_filter.mpr ⟨hx, hpx⟩
      rw [hf] at hxf
      exact absurd hxf (List.not_mem_nil x)
  have hkey : forecastKeyIs w.date w.metric (forecastInsertRow w now) = true := by
    simp [forecastKeyIs, forecastInsertRow]
  unfold upsertForecast
  rw [if_neg (by rw [hany]; simp), List.filter_append, hf, List.nil_append]
  simp [hkey]

theorem upsertAnomaly_conflict (t : List AnomalyRow) (a : AnomalyWrite)
    (now : ℕ) (r0 : AnomalyRow)
    (hf : t.filter (anomalyKeyIs a.date a.metric) = [r0]) :
    (upsertAnomaly t a now).filter (anomalyKeyIs a.date a.metric)
      = [anomalyUpdateRow r0 a now] := by
  have hr0 : r0 ∈ t.filter (anomalyKeyIs a.date a.metric) := by
    rw [hf]; exact List.mem_cons_self r0 []
  have hmf := List.mem_filter.mp hr0
  have hany : t.any (anomalyKeyIs a.date a.metric) = true :=
    List.any_eq_true.mpr ⟨r0, hmf.1, hmf.2⟩
  unfold upsertAnomaly
  rw [if_pos hany, List.filter_map]
  have hcong : ∀ r ∈ t,
      ((anomalyKeyIs a.date a.metric) ∘ (fun r =>
        if anomalyKeyIs a.date a.metric r then anomalyUpdateRow r a now
        else r)) r = anomalyKeyIs a.date a.metric r := by
    intro r hr
    by_cases hpr : anomalyKeyIs a.date a.metric r = true
    · simp only [Function.comp_apply, if_pos hpr]
      rfl
    · simp only [Function.comp_apply, if_neg hpr]
  rw [List.filter_congr hcong, hf, List.map_cons, List.map_nil, if_pos hmf.2]

theorem upsertAnomaly_fresh (t : List AnomalyRow) (a : AnomalyWrite)
    (now : ℕ) (hf : t.filter (anomalyKeyIs a.date a.metric) = []) :
    (upsertAnomaly t a now).filter (anomalyKeyIs a.date a.metric)
      = [anomalyInsertRow a now] := by
  have hany : t.any (anomalyKeyIs a.date a.metric) = false := by
    cases hb : t.any (anomalyKeyIs a.date a.metric) with
    | false => rfl
    | true =>
      obtain ⟨x, hx, hpx⟩ := List.any_eq_true.mp hb
      have hxf : x ∈ t.filter (anomalyKeyIs a.date a.metric) :=
        List.mem_filter.mpr ⟨hx, hpx⟩
      rw [hf] at hxf
      exact absurd hxf (List.not_mem_nil x)
  have hkey : anomalyKeyIs a.date a.metric (anomalyInsertRow a now) = true := by
    simp [anomalyKeyIs, anomalyInsertRow]
  unfold upsertAnomaly
  rw [if_neg (by rw [hany]; simp), List.filter_append, hf, List.nil_append]
  simp [hkey]

/-- C2: each upsert leaves exactly one row for its `(date, metric)` key —
a conflicting row is merged in place, a missing row is inserted — so
upserting twice with the same key leaves a single row carrying the second
value fields of the second write (last write wins, never a duplicate); and the anomaly
merge never touches the acknowledgment fields (`acknowledged`,
`acknowledged_by`, `acknowledged_at`), which are preserved from the stored
row on conflict and start cleared on a fresh insert (the anomaly writes of
this service never include them). -/
theorem upsert_one_row_per_key
    (tF : List ForecastRow) (w1 w2 : ForecastWrite) (n1 n2 : ℕ)
    (tA : List AnomalyRow) (a : AnomalyWrite) (n : ℕ) :
    (∀ r0, tF.filter (forecastKeyIs w2.date w2.metric) = [r0] →
        (upsertForecast tF w2 n2).filter (forecastKeyIs w2.date w2.metric)
          = [forecastUpdateRow r0 w2 n2])
    ∧ (tF.filter (forecastKeyIs w2.date w2.metric) = [] →
        (upsertForecast tF w2 n2).filter (forecastKeyIs w2.date w2.metric)
          = [forecastInsertRow w2 n2])
    ∧ (∀ r0, forecastValueFields (forecastUpdateRow r0 w2 n2)
          = (w2.predicted, w2.lower, w2.upper, w2.run_id, w2.model, w2.version)
        ∧ forecastValueFields (forecastInsertRow w2 n2)
          = (w2.predicted, w2.lower, w2.upper, w2.run_id, w2.model, w2.version))
    ∧ (w1.date = w2.date → w1.metric = w2.metric →
        (tF.filter (forecastKeyIs w2.date w2.metric)).length ≤ 1 →
        ((upsertForecast (upsertForecast tF w1 n1) w2 n2).filter
            (forecastKeyIs w2.date w2.metric)).map forecastValueFields
          = [(w2.predicted, w2.lower, w2.upper, w2.run_id, w2.model,
              w2.version)])
    ∧ (∀ r0, tA.filter (anomalyKeyIs a.date a.metric) = [r0] →
        (upsertAnomaly tA a n).filter (anomalyKeyIs a.date a.metric)
          = [anomalyUpdateRow r0 a n]
        ∧ anomalyValueFields (anomalyUpdateRow r0 a n)
          = (a.actual, a.expected, a.deviation, a.z_score, a.anomaly_type,
             a.severity, a.interpretation, a.action, a.run_id)
        ∧ ackFields (anomalyUpdateRow r0 a n) = ackFields r0
        ∧ (anomalyUpdateRow r0 a n).is_weekend = r0.is_weekend
        ∧ (anomalyUpdateRow r0 a n).day_of_week = r0.day_of_week)
    ∧ (tA.filter (anomalyKeyIs a.date a.metric) = [] →
        (upsertAnomaly tA a n).filter (anomalyKeyIs a.date a.metric)
          = [anomalyInsertRow a n]
        ∧ ackFields (anomalyInsertRow a n) = (false, none, none)) := by
  refine ⟨fun r0 hf => upsertForecast_conflict tF w2 n2 r0 hf,
    fun hf => upsertForecast_fresh tF w2 n2 hf,
    fun r0 => ⟨rfl, rfl⟩,
    ?_,
    fun r0 hf => ⟨upsertAnomaly_conflict tA a n r0 hf, rfl, rfl, rfl, rfl⟩,
    fun hf => ⟨upsertAnomaly_fresh tA a n hf, rfl⟩⟩
  intro hd hm hlen
  cases hcase : tF.filter (forecastKeyIs w2.date w2.metric) with
  | nil =>
    have h1 := upsertForecast_fresh tF w1 n1 (by rw [hd, hm]; exact hcase)
    rw [hd, hm] at h1
    have h2 := upsertForecast_conflict (upsertForecast tF w1 n1) w2 n2
      (forecastInsertRow w1 n1) h1
    rw [h2]
    rfl
  | cons r0 rest =>
    cases rest with
    | nil =>
      have h1 := upsertForecast_conflict tF w1 n1 r0 (by rw [hd, hm]; exact hcase)
      rw [hd, hm] at h1
      have h2 := upsertForecast_conflict (upsertForecast tF w1 n1) w2 n2
        (forecastUpdateRow r0 w1 n1) h1
      rw [h2]
      rfl
    | cons r1 rest2 =>
      rw [hcase] at hlen
      simp at hlen

theorem upsert_one_row_per_key_witness :
    ((upsertForecast (upsertForecast [] forecastWriteSample1 1)
        forecastWriteSample2 2).filter
        (forecastKeyIs forecastWriteSample2.date forecastWriteSample2.metric)).map
        forecastValueFields
      = [(forecastWriteSample2.predicted, forecastWriteSample2.lower,
          forecastWriteSample2.upper, forecastWriteSample2.run_id,
          forecastWriteSample2.model, forecastWriteSample2.version)]
    ∧ (upsertAnomaly [ackRowSample] anomalyWriteSample 3).filter
        (anomalyKeyIs anomalyWriteSample.date anomalyWriteSample.metric)
      = [anomalyUpdateRow ackRowSample anomalyWriteSample 3]
    ∧ ackFields (anomalyUpdateRow ackRowSample anomalyWriteSample 3)
      = ackFields ackRowSample :=
  ⟨(upsert_one_row_per_key [] forecastWriteSample1 forecastWriteSample2 1 2
      [ackRowSample] anomalyWriteSample 3).2.2.2.1 rfl rfl (by decide),
   ((upsert_one_row_per_key [] forecastWriteSample1 forecastWriteSample2 1 2
      [ackRowSample] anomalyWriteSample 3).2.2.2.2.1 ackRowSample (by decide)).1,
   ((upsert_one_row_per_key [] forecastWriteSample1 forecastWriteSample2 1 2
      [ackRowSample] anomalyWriteSample 3).2.2.2.2.1 ackRowSample (by decide)).2.2.1⟩

end MLService
